import Mathlib

/-
Verification development for the staking-dashboard repository
(src/src/components/AnimatedNumber.js and src/unnamed/part_000, the
constants module).

The file shallowly embeds the components the claims are about:

* `jsParseFloat` — model of the JavaScript parseFloat on the decimal
  fragment (optional sign, integer digits, optional fraction digits),
  returning none where JavaScript returns NaN.  Exponents, Infinity and
  leading whitespace are outside the fragment the dashboard feeds it.
* `parseUnits18` — model of ethers.parseUnits(s, 18): the whole string
  must be a signed decimal numeral with at most 18 fraction digits; the
  result is the fixed-point integer at scale 10^18; none models a throw.
* `handleTx` — the write-action handler of StakingCard (source lines
  251-278), as a pure function from the action, the amount string, the
  success message and an environment giving the outcome of each external
  contract call, to a record of the external calls issued in order, the
  status values set in order, the final status, whether a 3000 ms
  timeout to clear the status was scheduled, and whether the inputs were
  cleared and a refetch triggered.
* `fetchData` — the read cycle of StakingCard (source lines 231-243):
  three queries are issued via Promise.all and the three setters run
  only when all of them succeed; a rejection of any query rejects the
  joined promise and the catch block swallows it, leaving all slots at
  their prior values.
* `buttonDisabled` / `clickButton` — the three write buttons of the
  StakingCard JSX (source lines 288-290) with their disabled conditions;
  a click on a disabled button dispatches no handler.
* `connectWallet` — the wallet-connection flow of App (source lines
  83-119), over an environment giving the wallet lookup, enable, provider,
  current chain id and the outcomes of the switch/add-chain requests.
* `setSlotValue` — the AnimatedNumber effect (source lines 8-22 and
  41-56): on a new value the cleanup of the previous effect stops the
  previous tween, a new tween is started from prevValue.current (the
  previously requested value) to the new value, and prevValue.current is
  set to the new value.  The function returns the new slot state and the
  tween that was cancelled.
-/

/-- A status value as set by setStatus: a message and a type string
("", "info", "success" or "error"); the idle status is both fields empty. -/
structure Status where
  message : String
  type : String
deriving DecidableEq

/-- The three write actions of StakingCard. -/
inductive TxAction
  | stake
  | withdraw
  | claim
deriving DecidableEq

/-- A JavaScript error as observed by the catch block of handleTx:
only the optional `reason` field is read (error.reason of ethers errors;
plain Error objects have none). -/
structure JsError where
  reason : Option String
deriving DecidableEq

/-- Outcome of each external write call the environment may be asked to
perform; `Except.error` models the awaited call (or its .wait())
rejecting. -/
structure TxEnv where
  approveResult : Except JsError Unit
  stakeResult : Except JsError Unit
  withdrawResult : Except JsError Unit
  claimResult : Except JsError Unit

/-- The external contract write calls the dashboard can issue. -/
inductive ExtCall
  | approve (spender : String) (amount : ℤ)
  | stake (amount : ℤ)
  | withdraw (amount : ℤ)
  | claimReward
deriving DecidableEq

/-- Result of one run of handleTx: the external calls issued in order,
the statuses set in order, the final status, the delay of the scheduled
status-clearing timeout when one was scheduled, and whether the inputs
were cleared and an immediate refetch performed. -/
structure TxResult where
  calls : List ExtCall
  statusTrace : List Status
  finalStatus : Status
  successTimeoutMs : Option ℕ
  clearedInputs : Bool
  refetched : Bool
deriving DecidableEq

/-- From src/unnamed/part_000: the staking-contract address passed as the
spender of the approve call. -/
def INZO_STAKE_ADDRESS : String := "0x4c26a70c7d3A185f8f43570567C4bE84113765D9"

/-- Longest leading run of decimal digits of a character list, together
with the remaining characters (the digit values, most significant first). -/
def takeDigits : List Char → List ℕ × List Char
  | [] => ([], [])
  | c :: rest =>
    if c.isDigit then
      let p := takeDigits rest
      ((c.toNat - 48) :: p.1, p.2)
    else ([], c :: rest)

/-- Value of a digit list, most significant digit first. -/
def digitsVal (ds : List ℕ) : ℕ := ds.foldl (fun a d => 10 * a + d) 0

/-- Model of the JavaScript parseFloat on the decimal fragment the
dashboard feeds it: an optional sign, then digits, then an optional
point and fraction digits, parsed as a longest prefix; none models NaN
(no digits at all, as for "" or "abc"). -/
def jsParseFloat (s : String) : Option ℚ :=
  let cs := s.data
  let sign : ℚ := match cs with | '-' :: _ => -1 | _ => 1
  let cs2 := match cs with | '-' :: r => r | '+' :: r => r | _ => cs
  let ip := takeDigits cs2
  let fp := match ip.2 with | '.' :: r => takeDigits r | _ => ([], ip.2)
  if ip.1 = [] ∧ fp.1 = [] then none
  else some (sign * ((digitsVal ip.1 : ℚ) + (digitsVal fp.1 : ℚ) / 10 ^ fp.1.length))

/-- The comparison `parseFloat(amountStr) <= 0` of source line 255 under
JavaScript semantics: any comparison against NaN is false. -/
def jsLeZero : Option ℚ → Bool
  | none => false
  | some q => decide (q ≤ 0)

/-- Model of ethers.parseUnits(s, 18): the whole string must be a signed
decimal numeral with at most 18 fraction digits; the value is returned as
a fixed-point integer at scale 10^18; none models the call throwing. -/
def parseUnits18 (s : String) : Option ℤ :=
  let cs := s.data
  let sign : ℤ := match cs with | '-' :: _ => -1 | _ => 1
  let cs2 := match cs with | '-' :: r => r | _ => cs
  let ip := takeDigits cs2
  let fp := match ip.2 with | '.' :: r => takeDigits r | _ => ([], ip.2)
  if fp.2 = [] ∧ (ip.1 ≠ [] ∨ fp.1 ≠ []) ∧ fp.1.length ≤ 18 then
    some (sign * ((digitsVal ip.1 : ℤ) * 10 ^ 18 +
      (digitsVal fp.1 : ℤ) * 10 ^ (18 - fp.1.length)))
  else none

/-- The "Preparing transaction..." info status set at the top of handleTx. -/
def preparingStatus : Status := ⟨"Preparing transaction...", "info"⟩

/-- The error status set by the catch block of handleTx (source line 275):
the message is built from error.reason when present, else a generic
fallback. -/
def failStatus (e : JsError) : Status :=
  ⟨"Failed: " ++ e.reason.getD "Check console", "error"⟩

/-- Result record of a handleTx run ending in the catch block: the status
set last is the failure status, no clearing timeout is scheduled, the
inputs are not cleared and no refetch happens. -/
def failResult (calls : List ExtCall) (trace : List Status) (e : JsError) : TxResult :=
  ⟨calls, trace ++ [failStatus e], failStatus e, none, false, false⟩

/-- Result record of a handleTx run reaching the success lines 269-273:
success status, a 3000 ms timeout to clear the status, inputs cleared,
immediate refetch. -/
def okResult (calls : List ExtCall) (trace : List Status) (successMsg : String) : TxResult :=
  ⟨calls, trace ++ [⟨successMsg, "success"⟩], ⟨successMsg, "success"⟩,
    some 3000, true, true⟩

/-- The per-action call sequence of handleTx (source lines 258-267) given
the already-parsed fixed-point amount: each step is awaited and a failing
step stops the sequence (its own call was issued; no later call is). -/
def runSteps (action : TxAction) (amount : ℤ) (env : TxEnv) :
    List ExtCall × List Status × Except JsError Unit :=
  match action with
  | TxAction.stake =>
    match env.approveResult with
    | Except.error e =>
      ([ExtCall.approve INZO_STAKE_ADDRESS amount],
       [⟨"Approving...", "info"⟩], Except.error e)
    | Except.ok _ =>
      match env.stakeResult with
      | Except.error e =>
        ([ExtCall.approve INZO_STAKE_ADDRESS amount, ExtCall.stake amount],
         [⟨"Approving...", "info"⟩, ⟨"Staking...", "info"⟩], Except.error e)
      | Except.ok _ =>
        ([ExtCall.approve INZO_STAKE_ADDRESS amount, ExtCall.stake amount],
         [⟨"Approving...", "info"⟩, ⟨"Staking...", "info"⟩], Except.ok ())
  | TxAction.withdraw =>
    ([ExtCall.withdraw amount], [], env.withdrawResult)
  | TxAction.claim =>
    ([ExtCall.claimReward], [], env.claimResult)

/-- The handleTx function of StakingCard (source lines 251-278) as a pure
function of its inputs and the environment of external outcomes.  The
validation of line 255 throws a plain Error (no reason field) for a
non-claim action whose amount string is empty or whose parseFloat
compares at most zero; line 256 then converts the amount with
parseUnits, whose throw is also caught; otherwise the per-action steps
run in order. -/
def handleTx (action : TxAction) (amountStr successMsg : String) (env : TxEnv) : TxResult :=
  if action != TxAction.claim && (amountStr == "" || jsLeZero (jsParseFloat amountStr)) then
    failResult [] [preparingStatus] ⟨none⟩
  else
    match (if action != TxAction.claim then parseUnits18 amountStr else some 0) with
    | none => failResult [] [preparingStatus] ⟨none⟩
    | some amount =>
      match runSteps action amount env with
      | (calls, sts, Except.error e) => failResult calls (preparingStatus :: sts) e
      | (calls, sts, Except.ok _) => okResult calls (preparingStatus :: sts) successMsg

/-- The status shown once a scheduled clearing timeout has fired: the
timeout callback of source line 270 resets the status to idle; when no
timeout was scheduled the final status stays. -/
def statusAfterTimeout (r : TxResult) : Status :=
  match r.successTimeoutMs with
  | some _ => ⟨"", ""⟩
  | none => r.finalStatus

/-- The UI state of StakingCard that the three button conditions read:
the two amount input strings, the loading flag, and the displayed
earnedRewards value. -/
structure PanelState where
  stakeAmount : String
  withdrawAmount : String
  loading : Bool
  earnedRewards : ℚ
deriving DecidableEq

/-- The three write buttons of the StakingCard JSX. -/
inductive PanelButton
  | stakeBtn
  | withdrawBtn
  | claimBtn
deriving DecidableEq

/-- The claim threshold hard-coded in the disabled condition of the
claim button (source line 290): earnedRewards at most 0.000001 disables
it. -/
def minClaimThreshold : ℚ := 1 / 1000000

/-- The disabled attribute of each button as written in the JSX
(source lines 288-290): an empty amount string is falsy, so the stake
and withdraw buttons require a non-empty amount and no in-flight action;
the claim button additionally requires earnedRewards above the
threshold. -/
def buttonDisabled (s : PanelState) : PanelButton → Bool
  | PanelButton.stakeBtn => s.stakeAmount == "" || s.loading
  | PanelButton.withdrawBtn => s.withdrawAmount == "" || s.loading
  | PanelButton.claimBtn => decide (s.earnedRewards ≤ minClaimThreshold) || s.loading

/-- Dispatch of a click on a button: a disabled button fires no onClick
handler, so no handleTx invocation happens; an enabled button invokes
handleTx with the arguments written at its call site. -/
def clickButton (s : PanelState) (b : PanelButton) : Option (TxAction × String × String) :=
  if buttonDisabled s b then none
  else some (match b with
    | PanelButton.stakeBtn => (TxAction.stake, s.stakeAmount, "Staked successfully!")
    | PanelButton.withdrawBtn => (TxAction.withdraw, s.withdrawAmount, "Withdrawn successfully!")
    | PanelButton.claimBtn => (TxAction.claim, "0", "Rewards claimed!"))

/-- The three displayed read slots of StakingCard. -/
structure ReadState where
  inzoUSDBalance : ℚ
  stakedBalance : ℚ
  earnedRewards : ℚ
deriving DecidableEq

/-- ethers.formatUnits(w, 18) followed by parseFloat: the fixed-point
integer scaled down to a real value. -/
def formatUnits18 (w : ℤ) : ℚ := (w : ℚ) / 10 ^ 18

/-- The fetchData read cycle of StakingCard (source lines 231-243).
`ready` is the guard of line 232 (a connected address and both contract
handles).  The three query outcomes are joined by Promise.all: the
joined promise resolves only when all three resolve, and only then do
the three setters run; if any query rejects, Promise.all rejects, the
catch block swallows the error, and every slot keeps its prior value. -/
def fetchData (ready : Bool) (prev : ReadState)
    (usdRes stakedRes earnedRes : Option ℤ) : ReadState :=
  if !ready then prev
  else
    match usdRes, stakedRes, earnedRes with
    | some u, some s, some e => ⟨formatUnits18 u, formatUnits18 s, formatUnits18 e⟩
    | _, _, _ => prev

/-- An error raised by a wallet-provider request, with the numeric code
the fallback logic inspects and the message shown on abort. -/
structure ProviderError where
  code : Option ℤ
  message : String
deriving DecidableEq

/-- The chain-management requests connectWallet can send to the wallet
provider. -/
inductive WalletRequest
  | switchEthereumChain (chainId : ℕ)
  | addEthereumChain (chainName : String) (chainId : ℕ) (rpcUrl : String)
deriving DecidableEq

/-- The target chain id of the dashboard (source line 62). -/
def CORRECT_CHAIN_ID : ℕ := 420420421

/-- Fields of the static networkConfig descriptor (source lines 63-68). -/
def networkChainName : String := "Westend Asset Hub"

/-- The RPC endpoint of the static networkConfig descriptor. -/
def networkRpcUrl : String := "https://westend-asset-hub-eth-rpc.polkadot.io/"

/-- The wallet_addEthereumChain request carrying the static network
descriptor verbatim. -/
def addNetworkRequest : WalletRequest :=
  WalletRequest.addEthereumChain networkChainName CORRECT_CHAIN_ID networkRpcUrl

/-- Environment of connectWallet: whether the Talisman wallet and its
EVM provider are present, the outcome of enable, the chain id the
provider reports, the outcomes of the switch and add-chain requests, and
the signer address. -/
structure WalletEnv where
  talismanFound : Bool
  enableResult : Except ProviderError Unit
  providerFound : Bool
  chainId : ℕ
  switchResult : Except ProviderError Unit
  addResult : Except ProviderError Unit
  address : String

/-- Result of one run of connectWallet: the chain-management requests
issued in order, the connected address when the connection completed,
and the final status. -/
structure ConnectResult where
  requests : List WalletRequest
  userAddress : Option String
  finalStatus : Status
deriving DecidableEq

/-- The connectWallet flow of App (source lines 83-119).  When the
reported chain differs from the target, a switch request is sent; a
switch failure with code 4902 falls back to an add-network request with
the static descriptor; any other switch failure raises the error
"User rejected network switch.", which the outer catch surfaces and the
connection aborts with no address set. -/
def connectWallet (env : WalletEnv) : ConnectResult :=
  if !env.talismanFound then
    ⟨[], none, ⟨"Talisman wallet not found. Please install it.", "error"⟩⟩
  else
    match env.enableResult with
    | Except.error e => ⟨[], none, ⟨e.message, "error"⟩⟩
    | Except.ok _ =>
      if !env.providerFound then
        ⟨[], none, ⟨"Talisman EVM provider not found.", "error"⟩⟩
      else if env.chainId != CORRECT_CHAIN_ID then
        match env.switchResult with
        | Except.ok _ =>
          ⟨[WalletRequest.switchEthereumChain CORRECT_CHAIN_ID],
            some env.address, ⟨"", ""⟩⟩
        | Except.error se =>
          if se.code == some 4902 then
            match env.addResult with
            | Except.ok _ =>
              ⟨[WalletRequest.switchEthereumChain CORRECT_CHAIN_ID, addNetworkRequest],
                some env.address, ⟨"", ""⟩⟩
            | Except.error ae =>
              ⟨[WalletRequest.switchEthereumChain CORRECT_CHAIN_ID, addNetworkRequest],
                none, ⟨ae.message, "error"⟩⟩
          else
            ⟨[WalletRequest.switchEthereumChain CORRECT_CHAIN_ID],
              none, ⟨"User rejected network switch.", "error"⟩⟩
      else
        ⟨[], some env.address, ⟨"", ""⟩⟩

/-- A tween session as created by the animate call of AnimatedNumber:
an interpolation from a start value to a target. -/
structure Tween where
  startValue : ℚ
  target : ℚ
deriving DecidableEq

/-- The state of one AnimatedNumber display slot: the prevValue ref
(always the value most recently passed in) and the currently active
tween session, if any. -/
structure Slot where
  prevValue : ℚ
  active : Option Tween
deriving DecidableEq

/-- One run of the AnimatedNumber effect on a new value v (source lines
8-22 and 41-56): React first runs the cleanup of the previous effect,
which stops the active tween; the new effect then starts
animate(prevValue.current, v) and sets prevValue.current to v.  Returns
the new slot state together with the tween that was cancelled. -/
def setSlotValue (s : Slot) (v : ℚ) : Slot × Option Tween :=
  (⟨v, some ⟨s.prevValue, v⟩⟩, s.active)

/-- Modelled from the spec: the interpolation framer-motion performs for
the animate call of AnimatedNumber is not part of this repository; spec
section 4.1 states each sample is
previousValue + (targetValue - previousValue) * easing(elapsed/duration). -/
def tweenSample (prev target : ℚ) (easing : ℚ → ℚ) (t d : ℚ) : ℚ :=
  prev + (target - prev) * easing (t / d)

/-- Modelled from the spec: the sample sequence a tween emits at the
sample times, with the final sample clamped to equal the target
exactly (spec section 4.1). -/
def tweenSamples (prev target d : ℚ) (easing : ℚ → ℚ) (times : List ℚ) : List ℚ :=
  (times.map fun t => tweenSample prev target easing t d) ++ [target]

/-- An environment in which every external write call succeeds. -/
def envAllOk : TxEnv :=
  ⟨Except.ok (), Except.ok (), Except.ok (), Except.ok ()⟩

/-- C2: for an amount-bearing write action (stake or withdraw), an amount
string that is empty or whose parseFloat compares at most zero makes
handleTx issue no external call and finish with an error status. -/
theorem handleTx_invalid_amount_no_call (action : TxAction)
    (amountStr successMsg : String) (env : TxEnv)
    (ha : action ≠ TxAction.claim)
    (hv : amountStr = "" ∨ jsLeZero (jsParseFloat amountStr) = true) :
    (handleTx action amountStr successMsg env).calls = [] ∧
    (handleTx action amountStr successMsg env).finalStatus.type = "error" := by
  have hb : (action != TxAction.claim &&
      (amountStr == "" || jsLeZero (jsParseFloat amountStr))) = true := by
    rw [Bool.and_eq_true, Bool.or_eq_true]
    refine ⟨by simpa using ha, ?_⟩
    rcases hv with h | h
    · left
      simp [h]
    · right
      exact h
  simp [handleTx, hb, failResult, failStatus]

/-- Witness for C2 at the concrete input "-5" from the claim. -/
theorem handleTx_invalid_amount_no_call_witness :
    (handleTx TxAction.stake "-5" "Staked successfully!" envAllOk).calls = [] ∧
    (handleTx TxAction.stake "-5" "Staked successfully!" envAllOk).finalStatus.type
      = "error" :=
  handleTx_invalid_amount_no_call TxAction.stake "-5" "Staked successfully!" envAllOk
    (by decide)
    (Or.inr (by
      have h : jsParseFloat "-5" = some (-5) := by
        simp +decide [jsParseFloat, takeDigits, digitsVal]
      rw [h, jsLeZero]
      norm_num))

/-- C3: for the two-step stake action, the stake call is issued only
after the approve call has resolved successfully, and a failing approve
halts the sequence: the issued calls are exactly the approve call when
approve fails, and the approve call followed by the stake call when it
succeeds. -/
theorem handleTx_stake_sequential (amountStr successMsg : String) (env : TxEnv)
    (amount : ℤ)
    (hv : (amountStr == "" || jsLeZero (jsParseFloat amountStr)) = false)
    (hp : parseUnits18 amountStr = some amount) :
    (handleTx TxAction.stake amountStr successMsg env).calls =
      match env.approveResult with
      | Except.error _ => [ExtCall.approve INZO_STAKE_ADDRESS amount]
      | Except.ok _ =>
        [ExtCall.approve INZO_STAKE_ADDRESS amount, ExtCall.stake amount] := by
  have hb : (TxAction.stake != TxAction.claim &&
      (amountStr == "" || jsLeZero (jsParseFloat amountStr))) = false := by
    rw [hv, Bool.and_false]
  cases ha : env.approveResult with
  | error e => simp [handleTx, hb, hp, runSteps, ha, failResult]
  | ok u =>
    cases hs : env.stakeResult with
    | error e => simp [handleTx, hb, hp, runSteps, ha, hs, failResult]
    | ok v => simp [handleTx, hb, hp, runSteps, ha, hs, okResult]

/-- Witness for C3 at the amount string "100" with every call
succeeding. -/
theorem handleTx_stake_sequential_witness :
    (handleTx TxAction.stake "100" "Staked successfully!" envAllOk).calls =
      [ExtCall.approve INZO_STAKE_ADDRESS 100000000000000000000,
        ExtCall.stake 100000000000000000000] := by
  have hv : ("100" == "" || jsLeZero (jsParseFloat "100")) = false := by
    have h : jsParseFloat "100" = some 100 := by
      simp +decide [jsParseFloat, takeDigits, digitsVal]
    rw [h]
    show ("100" == "" || decide ((100 : ℚ) ≤ 0)) = false
    rw [decide_eq_false (by norm_num : ¬((100 : ℚ) ≤ 0))]
    decide
  have hp : parseUnits18 "100" = some 100000000000000000000 := by
    simp +decide [parseUnits18, takeDigits, digitsVal]
  have h := handleTx_stake_sequential "100" "Staked successfully!" envAllOk
    100000000000000000000 hv hp
  simpa [envAllOk] using h

/-- C4: while the loading flag of the panel is set, every write button is
disabled, so a click dispatches no handleTx invocation. -/
theorem click_rejected_while_loading (s : PanelState) (b : PanelButton)
    (h : s.loading = true) : clickButton s b = none := by
  cases b <;> simp [clickButton, buttonDisabled, h]

/-- Witness for C4: a loading panel with a filled stake amount still
rejects the stake click. -/
theorem click_rejected_while_loading_witness :
    clickButton ⟨"5", "7", true, 3⟩ PanelButton.stakeBtn = none :=
  click_rejected_while_loading ⟨"5", "7", true, 3⟩ PanelButton.stakeBtn rfl

/-- C8: earnedRewards at or below the 0.000001 threshold disables the
claim button, so a click dispatches no handleTx invocation and no
external call. -/
theorem claim_disabled_below_threshold (s : PanelState)
    (h : s.earnedRewards ≤ minClaimThreshold) :
    clickButton s PanelButton.claimBtn = none := by
  have hd : decide (s.earnedRewards ≤ minClaimThreshold) = true := decide_eq_true h
  simp [clickButton, buttonDisabled, hd]

/-- Witness for C8 at earnedRewards 0.0000001 from the claim. -/
theorem claim_disabled_below_threshold_witness :
    clickButton ⟨"", "", false, 1 / 10000000⟩ PanelButton.claimBtn = none :=
  claim_disabled_below_threshold ⟨"", "", false, 1 / 10000000⟩
    (by norm_num [minClaimThreshold])

/-- C10: the non-numeric amount string "abc" parses to NaN, the NaN
comparison against zero is false, so the validation of line 255 does not
reject it; the action proceeds and fails only at the parseUnits
conversion, still issuing no external call and ending in an error
status. -/
theorem handleTx_nan_passes_validation (successMsg : String) (env : TxEnv) :
    jsParseFloat "abc" = none ∧
    ("abc" == "" || jsLeZero (jsParseFloat "abc")) = false ∧
    parseUnits18 "abc" = none ∧
    (handleTx TxAction.stake "abc" successMsg env).calls = [] ∧
    (handleTx TxAction.stake "abc" successMsg env).finalStatus.type = "error" := by
  have h1 : jsParseFloat "abc" = none := by
    simp +decide [jsParseFloat, takeDigits, digitsVal]
  have h2 : ("abc" == "" || jsLeZero (jsParseFloat "abc")) = false := by
    rw [h1]
    rfl
  have h3 : parseUnits18 "abc" = none := by
    simp +decide [parseUnits18, takeDigits, digitsVal]
  have hb : (TxAction.stake != TxAction.claim &&
      ("abc" == "" || jsLeZero (jsParseFloat "abc"))) = false := by
    rw [h2, Bool.and_false]
  refine ⟨h1, h2, h3, ?_, ?_⟩ <;> simp [handleTx, hb, h3, failResult, failStatus]

/-- C6: when a new value arrives at an AnimatedNumber slot, the
previously active tween session is the one cancelled, the fresh tween
starts from the previously requested value (the prevValue ref), exactly
one tween — the newest — is active afterwards, and the prevValue ref now
holds the newest value. -/
theorem setSlotValue_restart_semantics (s : Slot) (v₁ v₂ : ℚ) :
    (setSlotValue (setSlotValue s v₁).1 v₂).2 = (setSlotValue s v₁).1.active ∧
    (setSlotValue s v₁).1.active = some ⟨s.prevValue, v₁⟩ ∧
    (setSlotValue (setSlotValue s v₁).1 v₂).1.active = some ⟨v₁, v₂⟩ ∧
    (setSlotValue (setSlotValue s v₁).1 v₂).1.prevValue = v₂ := by
  simp [setSlotValue]

/-- C1 counterexample: a read cycle in which the balance query fails but
the stakedBalance and earned queries succeed does not update the
stakedBalance slot — Promise.all rejects as a whole, so the succeeding
results are discarded, against the claim that they are still applied. -/
theorem fetchData_not_slot_isolated :
    ¬ ((fetchData true ⟨0, 0, 0⟩ none (some (5 * 10 ^ 18))
        (some (10 ^ 18))).stakedBalance = formatUnits18 (5 * 10 ^ 18)) := by
  have h : fetchData true ⟨0, 0, 0⟩ none (some (5 * 10 ^ 18)) (some (10 ^ 18))
      = ⟨0, 0, 0⟩ := by
    simp [fetchData]
  rw [h]
  simp only [formatUnits18]
  norm_num

/-- C1 amended: the read cycle is all-or-nothing — when any of the three
queries fails, every slot keeps its pre-cycle value (including the slots
whose queries succeeded); only when all three succeed are all three slots
updated. -/
theorem fetchData_all_or_nothing (prev : ReadState) (u s e : Option ℤ) :
    ((u = none ∨ s = none ∨ e = none) → fetchData true prev u s e = prev) ∧
    (∀ uv sv ev, u = some uv → s = some sv → e = some ev →
      fetchData true prev u s e =
        ⟨formatUnits18 uv, formatUnits18 sv, formatUnits18 ev⟩) := by
  constructor
  · intro h
    cases u <;> cases s <;> cases e <;> simp_all [fetchData]
  · intro uv sv ev hu hs he
    subst hu
    subst hs
    subst he
    simp [fetchData]

/-- Witness for the amended C1: one failing query leaves all slots at
their prior values. -/
theorem fetchData_all_or_nothing_witness :
    fetchData true ⟨1, 2, 3⟩ none (some 7) (some 9) = ⟨1, 2, 3⟩ :=
  (fetchData_all_or_nothing ⟨1, 2, 3⟩ none (some 7) (some 9)).1 (Or.inl rfl)

/-- Every handleTx run ends in either the catch block or the success
lines, with the preparing status set first. -/
theorem handleTx_shape (action : TxAction) (amountStr successMsg : String)
    (env : TxEnv) :
    (∃ calls tr e, handleTx action amountStr successMsg env =
      failResult calls (preparingStatus :: tr) e) ∨
    (∃ calls tr, handleTx action amountStr successMsg env =
      okResult calls (preparingStatus :: tr) successMsg) := by
  unfold handleTx
  split
  · exact Or.inl ⟨[], [], ⟨none⟩, rfl⟩
  · split
    · exact Or.inl ⟨[], [], ⟨none⟩, rfl⟩
    · split
      · next calls sts err heq =>
        exact Or.inl ⟨calls, sts, err, rfl⟩
      · next calls sts u heq =>
        exact Or.inr ⟨calls, sts, rfl⟩

/-- C5: a successful write action sets the success status with the given
message and schedules the fixed 3000 ms timeout after which the status is
idle; a failing write action sets an error status, schedules no timeout,
so the error persists, and the next attempt starts by setting the
preparing status (the first status every run sets). -/
theorem handleTx_status_lifecycle (action : TxAction)
    (amountStr successMsg : String) (env : TxEnv) :
    ((handleTx action amountStr successMsg env).finalStatus.type = "success" →
      (handleTx action amountStr successMsg env).finalStatus.message = successMsg ∧
      (handleTx action amountStr successMsg env).successTimeoutMs = some 3000 ∧
      statusAfterTimeout (handleTx action amountStr successMsg env) = ⟨"", ""⟩) ∧
    ((handleTx action amountStr successMsg env).finalStatus.type = "error" →
      (handleTx action amountStr successMsg env).successTimeoutMs = none ∧
      statusAfterTimeout (handleTx action amountStr successMsg env) =
        (handleTx action amountStr successMsg env).finalStatus) ∧
    (handleTx action amountStr successMsg env).statusTrace.head? =
      some preparingStatus := by
  rcases handleTx_shape action amountStr successMsg env with
    ⟨calls, tr, e, h⟩ | ⟨calls, tr, h⟩
  · rw [h]
    refine ⟨?_, ?_, ?_⟩
    · intro hc
      simp [failResult, failStatus] at hc
    · intro _
      simp [failResult, statusAfterTimeout]
    · simp [failResult]
  · rw [h]
    refine ⟨?_, ?_, ?_⟩
    · intro _
      simp [okResult, statusAfterTimeout]
    · intro hc
      simp [okResult] at hc
    · simp [okResult]

/-- Witness for C5: a successful claim run schedules the 3000 ms timeout
and the status after it is idle. -/
theorem handleTx_status_lifecycle_witness :
    (handleTx TxAction.claim "0" "Rewards claimed!" envAllOk).successTimeoutMs
      = some 3000 ∧
    statusAfterTimeout (handleTx TxAction.claim "0" "Rewards claimed!" envAllOk)
      = ⟨"", ""⟩ := by
  have h := handleTx_status_lifecycle TxAction.claim "0" "Rewards claimed!" envAllOk
  have hs : (handleTx TxAction.claim "0" "Rewards claimed!" envAllOk).finalStatus.type
      = "success" := rfl
  exact ⟨(h.1 hs).2.1, (h.1 hs).2.2⟩

/-- C7: during connection on the wrong chain a switch request is issued;
a switch failure with code 4902 issues the add-network request with the
static descriptor; a switch failure with any other code aborts the
connection with the distinct user-rejected error status and no connected
address. -/
theorem connectWallet_switch_fallback (env : WalletEnv) (se : ProviderError)
    (h1 : env.talismanFound = true)
    (h2 : env.enableResult = Except.ok ())
    (h3 : env.providerFound = true)
    (h4 : env.chainId ≠ CORRECT_CHAIN_ID)
    (h5 : env.switchResult = Except.error se) :
    WalletRequest.switchEthereumChain CORRECT_CHAIN_ID ∈ (connectWallet env).requests ∧
    (se.code = some 4902 → addNetworkRequest ∈ (connectWallet env).requests) ∧
    (se.code ≠ some 4902 →
      (connectWallet env).userAddress = none ∧
      (connectWallet env).finalStatus = ⟨"User rejected network switch.", "error"⟩) := by
  have hb : (env.chainId != CORRECT_CHAIN_ID) = true := by simpa using h4
  by_cases hc : se.code = some 4902
  · have hbc : (se.code == some 4902) = true := by simp [hc]
    cases ha : env.addResult <;>
      simp [connectWallet, h1, h2, h3, hb, h5, hbc, ha, hc]
  · have hbc : (se.code == some 4902) = false := by simp [hc]
    simp [connectWallet, h1, h2, h3, hb, h5, hbc, hc]

/-- Witness for C7: chain id 1 differs from the target, the switch fails
with code 4902, and the add-network request is issued. -/
theorem connectWallet_switch_fallback_witness :
    addNetworkRequest ∈
      (connectWallet ⟨true, Except.ok (), true, 1,
        Except.error ⟨some 4902, "unknown chain"⟩, Except.ok (), "0xabc"⟩).requests :=
  (connectWallet_switch_fallback
    ⟨true, Except.ok (), true, 1,
      Except.error ⟨some 4902, "unknown chain"⟩, Except.ok (), "0xabc"⟩
    ⟨some 4902, "unknown chain"⟩
    rfl rfl rfl (by decide) rfl).2.1 rfl

/-- C9: every tween sample is the eased interpolation
prev + (target - prev) * easing(t / d), every sample lies between the
minimum and maximum of the endpoints, and the final emitted sample equals
the target exactly. -/
theorem tween_bounds_and_final (prev target d : ℚ) (easing : ℚ → ℚ)
    (times : List ℚ)
    (hd : 0 < d)
    (heas : ∀ p, 0 ≤ p → p ≤ 1 → 0 ≤ easing p ∧ easing p ≤ 1)
    (_hmono : ∀ p q, 0 ≤ p → p ≤ q → q ≤ 1 → easing p ≤ easing q)
    (htimes : ∀ t ∈ times, 0 ≤ t ∧ t ≤ d) :
    (∀ x ∈ tweenSamples prev target d easing times,
      min prev target ≤ x ∧ x ≤ max prev target) ∧
    (tweenSamples prev target d easing times).getLast? = some target ∧
    (∀ t ∈ times, tweenSample prev target easing t d =
      prev + (target - prev) * easing (t / d)) := by
  refine ⟨?_, ?_, fun t _ => rfl⟩
  · intro x hx
    rw [tweenSamples, List.mem_append] at hx
    rcases hx with hx | hx
    · rw [List.mem_map] at hx
      obtain ⟨t, ht, rfl⟩ := hx
      obtain ⟨ht0, htd⟩ := htimes t ht
      have hp0 : 0 ≤ t / d := div_nonneg ht0 hd.le
      have hp1 : t / d ≤ 1 := (div_le_one hd).2 htd
      obtain ⟨he0, he1⟩ := heas _ hp0 hp1
      rw [tweenSample]
      constructor
      · rcases le_total prev target with hpt | hpt
        · rw [min_eq_left hpt]
          nlinarith [mul_nonneg (sub_nonneg.2 hpt) he0]
        · rw [min_eq_right hpt]
          nlinarith [mul_nonneg (sub_nonneg.2 hpt) (sub_nonneg.2 he1)]
      · rcases le_total prev target with hpt | hpt
        · rw [max_eq_right hpt]
          nlinarith [mul_nonneg (sub_nonneg.2 hpt) (sub_nonneg.2 he1)]
        · rw [max_eq_left hpt]
          nlinarith [mul_nonneg (sub_nonneg.2 hpt) he0]
    · rw [List.mem_singleton] at hx
      subst hx
      exact ⟨min_le_right _ _, le_max_right _ _⟩
  · rw [tweenSamples, List.getLast?_concat]

/-- Witness for C9 with the identity easing over duration 1. -/
theorem tween_bounds_and_final_witness :
    (tweenSamples 0 1 1 (fun p => p) []).getLast? = some 1 :=
  (tween_bounds_and_final 0 1 1 (fun p => p) [] (by norm_num)
    (fun _ hp0 hp1 => ⟨hp0, hp1⟩)
    (fun _ _ _ hpq _ => hpq)
    (by intro t ht; exact absurd ht (List.not_mem_nil t))).2.1
